import Mathlib

/-!
Shallow embedding of the hurricane constraint engine
(`scripts/constraint_engine_v2.py`): the data model, the constraint
computation `ConstraintEngine.calculate_constraints`, its helper rules
(classification score, refusal risk, regime, summary), the bounded FIFO
history, and the insight generator.  Python floats are modelled by `ℚ`;
advisory timestamps are rational seconds since an arbitrary epoch;
fallible operations (float division by zero, formatting `None`) return
`Option`.
-/

/-- Advisory data (`NHCAdvisory` dataclass).  `advisory_time` is in
seconds; `current_pressure` is optional, as in the source. -/
structure NHCAdvisory where
  storm_id : String
  storm_name : String
  advisory_number : Int
  advisory_time : ℚ
  classification : String
  current_intensity : ℚ
  current_pressure : Option ℚ
  latitude : ℚ
  longitude : ℚ
  movement_direction : String
  movement_speed : ℚ
deriving DecidableEq

/-- Environmental parameters (`EnvironmentalData` dataclass). -/
structure EnvironmentalData where
  sst : ℚ
  wind_shear : ℚ
  potential_intensity : ℚ
  latitude : ℚ
  source : String
deriving DecidableEq

/-- Triadic constraint state (`ConstraintState` dataclass). -/
structure ConstraintState where
  timestamp : ℚ
  storm_name : String
  I : ℚ
  R : ℚ
  S : ℚ
  L : ℚ
  dI_dt : ℚ
  dR_dt : ℚ
  dS_dt : ℚ
  dL_dt : ℚ
  gradient_hazard : Bool
  refusal_risk : String
  regime : String
  current_intensity : ℚ
  nhc_forecast_change : ℚ
  constraint_summary : String
deriving DecidableEq

/-- Generated insight (`DiagnosticInsight` dataclass). -/
structure DiagnosticInsight where
  timestamp : ℚ
  storm_name : String
  nhc_summary : String
  constraint_summary : String
  comparative_insight : String
  forecast_implication : String
  confidence : ℚ
  thermodynamic_ceiling_pct : ℚ
  time_to_peak_estimate : Option String
  structural_trend : String
deriving DecidableEq

/-- Python `max(lo, min(hi, x))` clamp pattern used throughout the engine. -/
def clamp (lo hi x : ℚ) : ℚ := max lo (min hi x)

/-- Python `classification.upper()` viewed as a character list. -/
def upclass (s : String) : List Char := s.toList.map Char.toUpper

/-- Python substring test `pat in c` on an upper-cased label:
contiguous-sublist containment. -/
abbrev hasSub (c : List Char) (pat : String) : Prop := pat.toList <:+: c

/-- `ConstraintEngine._classification_score`: ordered substring lookup on
the upper-cased classification label. -/
def classificationScore (classification : String) : ℚ :=
  let c := upclass classification
  if hasSub c "CATEGORY 5" ∨ hasSub c "CAT 5" then 0.95
  else if hasSub c "CATEGORY 4" ∨ hasSub c "CAT 4" then 0.90
  else if hasSub c "CATEGORY 3" ∨ hasSub c "CAT 3" ∨ hasSub c "MAJOR" then 0.85
  else if hasSub c "CATEGORY 2" ∨ hasSub c "CAT 2" then 0.75
  else if hasSub c "CATEGORY 1" ∨ hasSub c "CAT 1" then 0.70
  else if hasSub c "HURRICANE" then 0.70
  else if hasSub c "TROPICAL STORM" ∨ hasSub c "TS" then 0.55
  else if hasSub c "TROPICAL DEPRESSION" ∨ hasSub c "TD" then 0.35
  else if hasSub c "POST-TROPICAL" ∨ hasSub c "REMNANT" then 0.15
  else 0.50

/-- `ConstraintEngine._assess_refusal_risk`. -/
def assessRefusalRisk (L S dS_dt : ℚ) : String :=
  if L < 0.15 ∨ (S < 0.25 ∧ dS_dt < -0.05) then "CRITICAL"
  else if L < 0.25 ∨ (S < 0.40 ∧ dS_dt < -0.03) then "HIGH"
  else if L < 0.40 then "MODERATE"
  else "LOW"

/-- `ConstraintEngine._identify_regime`: the nested `return` inside the
first guard in the source is equivalent to conjoining both conditions. -/
def identifyRegime (I R S dI_dt dR_dt dS_dt : ℚ) : String :=
  if 0.65 < I ∧ 0.70 < R ∧ 0.60 < S ∧ (0.01 < dI_dt ∨ 0.01 < dS_dt) then "RI_CANDIDATE"
  else if I < 0.35 ∧ 0.60 < S then "PEAK_LIMITED"
  else if S < 0.35 ∨ (dS_dt < -0.05 ∧ S < 0.50) then "COLLAPSE"
  else if (dI_dt < -0.02 ∧ dR_dt < -0.02) ∨ dS_dt < -0.03 then "DECAY"
  else "STABLE"

/-- `ConstraintEngine._generate_summary`. -/
def generateSummary (I R S : ℚ) (regime : String) : String :=
  let headroom :=
    if 0.70 < I then "high thermodynamic headroom"
    else if 0.45 < I then "moderate headroom"
    else if 0.25 < I then "low headroom, near ceiling"
    else "very limited headroom"
  let env_desc :=
    if 0.75 < R then "highly favorable environment"
    else if 0.55 < R then "moderately favorable environment"
    else "marginal environment"
  let struct_desc :=
    if 0.80 < S then "well-organized structure"
    else if 0.60 < S then "moderately organized"
    else if 0.40 < S then "showing structural stress"
    else "poorly organized"
  headroom.capitalize ++ ", " ++ env_desc ++ ", " ++ struct_desc ++ ". Regime: " ++ regime

/-- Pressure-wind consistency proxy inside `calculate_constraints`: the
Python truthiness test `if nhc.current_pressure:` leaves the neutral 0.5
both when pressure is `None` and when it is exactly 0. -/
def pressureScore (nhc : NHCAdvisory) : ℚ :=
  match nhc.current_pressure with
  | none => 0.5
  | some p =>
    if p = 0 then 0.5
    else
      let expected_pressure := 1015 - nhc.current_intensity * 0.65
      max 0 (1.0 - |p - expected_pressure| / 30.0)

/-- Raw indicative index before smoothing (`I_raw` in the source). -/
def I_raw (nhc : NHCAdvisory) (env : EnvironmentalData) : ℚ :=
  clamp 0.05 0.95 (1.0 - nhc.current_intensity / env.potential_intensity)

/-- Raw relational index before smoothing (`R_raw` in the source). -/
def R_raw (env : EnvironmentalData) : ℚ :=
  let shear_factor := max 0 (1.0 - env.wind_shear / 35.0)
  let sst_factor := max 0 (min 1.0 ((env.sst - 24.0) / 6.0))
  let lat_factor := max 0 (1.0 - |env.latitude - 22| / 25)
  clamp 0.1 0.95 (0.5 * shear_factor + 0.3 * sst_factor + 0.2 * lat_factor)

/-- Raw semantic index before smoothing (`S_raw` in the source). -/
def S_raw (nhc : NHCAdvisory) (env : EnvironmentalData) : ℚ :=
  let class_score := classificationScore nhc.classification
  let p_score := pressureScore nhc
  let shear_impact := max 0 (1.0 - env.wind_shear / 40.0)
  clamp 0.05 0.95 (0.4 * class_score + 0.3 * p_score + 0.3 * shear_impact)

/-- Smoothed indicative index: 70% current / 30% previous memory. -/
def smoothedI (nhc : NHCAdvisory) (env : EnvironmentalData)
    (prev : Option ConstraintState) : ℚ :=
  match prev with
  | some p => 0.7 * I_raw nhc env + 0.3 * p.I
  | none => I_raw nhc env

/-- Smoothed relational index: 70% current / 30% previous memory. -/
def smoothedR (env : EnvironmentalData) (prev : Option ConstraintState) : ℚ :=
  match prev with
  | some p => 0.7 * R_raw env + 0.3 * p.R
  | none => R_raw env

/-- Smoothed semantic index: stronger 80% / 20% memory for structure. -/
def smoothedS (nhc : NHCAdvisory) (env : EnvironmentalData)
    (prev : Option ConstraintState) : ℚ :=
  match prev with
  | some p => 0.8 * S_raw nhc env + 0.2 * p.S
  | none => S_raw nhc env

/-- Admissibility `L = I * R * S`, never independently clamped. -/
def admissibility (nhc : NHCAdvisory) (env : EnvironmentalData)
    (prev : Option ConstraintState) : ℚ :=
  smoothedI nhc env prev * smoothedR env prev * smoothedS nhc env prev

/-- Rates of change `(dI_dt, dR_dt, dS_dt, dL_dt)`: zero when there is no
previous state or the elapsed time (timestamp delta in hours) is not
strictly positive. -/
def rateVec (nhc : NHCAdvisory) (env : EnvironmentalData)
    (prev : Option ConstraintState) : ℚ × ℚ × ℚ × ℚ :=
  match prev with
  | none => (0, 0, 0, 0)
  | some p =>
    let dt := (nhc.advisory_time - p.timestamp) / 3600
    if 0 < dt then
      ((smoothedI nhc env prev - p.I) / dt,
       (smoothedR env prev - p.R) / dt,
       (smoothedS nhc env prev - p.S) / dt,
       (admissibility nhc env prev - p.L) / dt)
    else (0, 0, 0, 0)

/-- The `ConstraintState` built by `calculate_constraints` once the
headroom division is known to be defined. -/
def buildState (nhc : NHCAdvisory) (env : EnvironmentalData)
    (prev : Option ConstraintState) : ConstraintState :=
  let I := smoothedI nhc env prev
  let R := smoothedR env prev
  let S := smoothedS nhc env prev
  let L := admissibility nhc env prev
  let rates := rateVec nhc env prev
  let dI_dt := rates.1
  let dR_dt := rates.2.1
  let dS_dt := rates.2.2.1
  let dL_dt := rates.2.2.2
  let regime := identifyRegime I R S dI_dt dR_dt dS_dt
  { timestamp := nhc.advisory_time
    storm_name := nhc.storm_name
    I := I
    R := R
    S := S
    L := L
    dI_dt := dI_dt
    dR_dt := dR_dt
    dS_dt := dS_dt
    dL_dt := dL_dt
    gradient_hazard := decide (dL_dt < -0.02)
    refusal_risk := assessRefusalRisk L S dS_dt
    regime := regime
    current_intensity := nhc.current_intensity
    nhc_forecast_change := 0
    constraint_summary := generateSummary I R S regime }

/-- `ConstraintEngine.calculate_constraints` on one explicit previous
state.  In the source the first arithmetic step divides by
`env.potential_intensity`; a Python float division by zero raises
`ZeroDivisionError`, modelled here as `none`. -/
def calculateConstraints (nhc : NHCAdvisory) (env : EnvironmentalData)
    (prev : Option ConstraintState) : Option ConstraintState :=
  if env.potential_intensity = 0 then none
  else some (buildState nhc env prev)

/-- The engine history limit (`self.history_limit = 48`). -/
def historyLimit : Nat := 48

/-- One engine invocation on an explicit history: `prev` is
`history[-1]`, the new state is appended, and `history.pop(0)` evicts the
oldest entry once the cap is exceeded. -/
def engineStep (hist : List ConstraintState) (nhc : NHCAdvisory)
    (env : EnvironmentalData) : Option (List ConstraintState × ConstraintState) :=
  match calculateConstraints nhc env hist.getLast? with
  | none => none
  | some st =>
    let h := hist ++ [st]
    some (if historyLimit < h.length then h.tail else h, st)

/-- Sequential engine runs over a list of advisory/environment inputs,
returning the final history and every produced state in order. -/
def engineRun : List (NHCAdvisory × EnvironmentalData) → List ConstraintState →
    Option (List ConstraintState × List ConstraintState)
  | [], h => some (h, [])
  | p :: rest, h =>
    match engineStep h p.1 p.2 with
    | none => none
    | some (h', st) =>
      match engineRun rest h' with
      | none => none
      | some (hf, outs) => some (hf, st :: outs)

/-- Models Python percent-style "%.0f" formatting under the rational
idealization of floats: rounding to the nearest integer. -/
def formatF0 (q : ℚ) : String := toString (round q)

/-- `InsightGenerator._summarize_nhc`: the fixed-precision format is
applied to `nhc.current_pressure` unconditionally, so a missing pressure
raises `TypeError` in Python, modelled as `none`. -/
def summarizeNhc (nhc : NHCAdvisory) : Option String :=
  match nhc.current_pressure with
  | none => none
  | some p =>
    some (nhc.classification ++ " with " ++ formatF0 nhc.current_intensity ++
      " kt winds (" ++ formatF0 p ++ " mb), moving " ++ nhc.movement_direction ++
      " at " ++ formatF0 nhc.movement_speed ++ " kt.")

/-- `InsightGenerator._generate_comparative_insight`. -/
def generateComparativeInsight (nhc : NHCAdvisory) (constraints : ConstraintState)
    (env : EnvironmentalData) : String :=
  let ceiling_pct := nhc.current_intensity / env.potential_intensity * 100
  let l1 : List String :=
    if 85 < ceiling_pct then
      ["Storm at " ++ formatF0 ceiling_pct ++ "% of thermodynamic ceiling (PI=" ++
        formatF0 env.potential_intensity ++ " kt) - limited upside potential."]
    else if ceiling_pct < 60 ∧ 0.60 < constraints.I then
      ["Storm at " ++ formatF0 ceiling_pct ++
        "% of ceiling with high headroom - significant intensification possible."]
    else []
  let l2 : List String :=
    if constraints.S < 0.40 ∧ 80 < nhc.current_intensity then
      ["Structural coherence weak despite current intensity - may indicate instability."]
    else if 0.80 < constraints.S ∧ 0 < constraints.dS_dt then
      ["Structure strengthening - supports continued intensification."]
    else []
  let l3 : List String :=
    if constraints.regime = "RI_CANDIDATE" then
      ["All constraints aligned for rapid intensification within 24 hours."]
    else if constraints.regime = "PEAK_LIMITED" then
      ["Approaching thermodynamic limits - peak intensity likely within 12-24 hours."]
    else if constraints.regime = "COLLAPSE" then
      ["Structural collapse underway - expect abrupt weakening."]
    else []
  let l4 : List String :=
    if constraints.gradient_hazard then
      ["Admissibility declining - storm moving into less favorable constraint space."]
    else []
  let insights := l1 ++ l2 ++ l3 ++ l4
  let insights :=
    if insights = [] then ["Constraint analysis aligns with current NHC assessment."]
    else insights
  String.intercalate " " insights

/-- `InsightGenerator._generate_forecast_implication`. -/
def generateForecastImplication (nhc : NHCAdvisory)
    (constraints : ConstraintState) : String :=
  let l1 : List String :=
    if constraints.I < 0.25 then
      ["Limited intensification potential beyond current state."]
    else if 0.65 < constraints.I ∧ 0.70 < constraints.R then
      ["Ample headroom for strengthening if other factors align."]
    else []
  let l2 : List String :=
    if constraints.S < 0.35 ∧ constraints.dS_dt < -0.03 then
      ["Structural deterioration suggests faster weakening than typical."]
    else []
  let l3 : List String :=
    if constraints.regime = "RI_CANDIDATE" then
      ["Rapid intensification (35+ kt in 24h) is possible."]
    else if constraints.regime = "PEAK_LIMITED" then
      ["Peak intensity likely near current levels."]
    else []
  let implications := l1 ++ l2 ++ l3
  let implications :=
    if implications = [] then
      ["No strong constraint-based deviations from standard forecast expected."]
    else implications
  String.intercalate " " implications

/-- `InsightGenerator._calculate_confidence`. -/
def calculateConfidence (constraints : ConstraintState) : ℚ :=
  let confidence : ℚ := 0.6
  let confidence :=
    if constraints.regime = "RI_CANDIDATE" ∨ constraints.regime = "PEAK_LIMITED" ∨
        constraints.regime = "COLLAPSE" then
      confidence + 0.15
    else confidence
  let confidence := if 0.03 < |constraints.dL_dt| then confidence + 0.10 else confidence
  let confidence :=
    if 0.4 < constraints.L ∧ constraints.L < 0.6 then confidence - 0.10 else confidence
  max 0.4 (min 0.95 confidence)

/-- `InsightGenerator._estimate_time_to_peak`. -/
def estimateTimeToPeak (constraints : ConstraintState)
    (env : EnvironmentalData) : Option String :=
  if constraints.regime = "PEAK_LIMITED" then some "within 12-24 hours"
  else if constraints.I < 0.30 then some "at or near peak now"
  else if constraints.regime = "RI_CANDIDATE" then some "24-48 hours (if RI occurs)"
  else none

/-- `InsightGenerator._assess_structural_trend`. -/
def assessStructuralTrend (constraints : ConstraintState) : String :=
  if 0.02 < constraints.dS_dt then "strengthening"
  else if constraints.dS_dt < -0.02 then "deteriorating"
  else "stable"

/-- The classification lookup as the ordered rule table the spec
describes: each row is the set of substring patterns for one tier
together with its score, most specific rows first. -/
def classificationTable : List (List String × ℚ) :=
  [(["CATEGORY 5", "CAT 5"], 0.95),
   (["CATEGORY 4", "CAT 4"], 0.90),
   (["CATEGORY 3", "CAT 3", "MAJOR"], 0.85),
   (["CATEGORY 2", "CAT 2"], 0.75),
   (["CATEGORY 1", "CAT 1"], 0.70),
   (["HURRICANE"], 0.70),
   (["TROPICAL STORM", "TS"], 0.55),
   (["TROPICAL DEPRESSION", "TD"], 0.35),
   (["POST-TROPICAL", "REMNANT"], 0.15)]

/-- First-match lookup over an ordered rule table, default 0.50. -/
def tableLookup (c : List Char) : List (List String × ℚ) → ℚ
  | [] => 0.50
  | (pats, v) :: rest => if ∃ p ∈ pats, hasSub c p then v else tableLookup c rest

/-- Every pattern the source checks before the post-tropical/remnant
tier. -/
def higherPatterns : List String :=
  ["CATEGORY 5", "CAT 5", "CATEGORY 4", "CAT 4", "CATEGORY 3", "CAT 3", "MAJOR",
   "CATEGORY 2", "CAT 2", "CATEGORY 1", "CAT 1", "HURRICANE",
   "TROPICAL STORM", "TS", "TROPICAL DEPRESSION", "TD"]

/-- Severity rank of a refusal-risk label under the documented ordering
LOW < MODERATE < HIGH < CRITICAL. -/
def riskRank (r : String) : ℕ :=
  if r = "CRITICAL" then 3
  else if r = "HIGH" then 2
  else if r = "MODERATE" then 1
  else 0

/-- The documented range invariant on a stored state: bounded indices and
a self-bounded, never independently clamped admissibility. -/
def StateInRange (s : ConstraintState) : Prop :=
  0.05 ≤ s.I ∧ s.I ≤ 0.95 ∧
  0.1 ≤ s.R ∧ s.R ≤ 0.95 ∧
  0.05 ≤ s.S ∧ s.S ≤ 0.95 ∧
  s.L = s.I * s.R * s.S ∧
  0.05 * 0.1 * 0.05 ≤ s.L ∧ s.L ≤ 0.95 ^ 3

/-- Sample advisory used to instantiate proved theorems. -/
def sampleNhc : NHCAdvisory :=
  { storm_id := "al092026", storm_name := "SAMPLE", advisory_number := 3,
    advisory_time := 43200, classification := "TROPICAL STORM",
    current_intensity := 45, current_pressure := some 998, latitude := 18,
    longitude := -79, movement_direction := "NW", movement_speed := 12 }

/-- Sample advisory with a missing pressure. -/
def sampleNhcNoPressure : NHCAdvisory :=
  { storm_id := "al092026", storm_name := "SAMPLE", advisory_number := 4,
    advisory_time := 86400, classification := "TROPICAL STORM",
    current_intensity := 45, current_pressure := none, latitude := 18,
    longitude := -79, movement_direction := "NW", movement_speed := 12 }

/-- Sample environment used to instantiate proved theorems. -/
def sampleEnv : EnvironmentalData :=
  { sst := 29, wind_shear := 10, potential_intensity := 150, latitude := 18,
    source := "estimated_climatology" }

/-- Sample previous constraint state used to instantiate proved
theorems. -/
def sampleState : ConstraintState :=
  { timestamp := 0, storm_name := "SAMPLE", I := 0.5, R := 0.5, S := 0.5,
    L := 0.125, dI_dt := 0, dR_dt := 0, dS_dt := 0, dL_dt := 0,
    gradient_hazard := false, refusal_risk := "MODERATE", regime := "STABLE",
    current_intensity := 40, nhc_forecast_change := 0,
    constraint_summary := "" }

/-- Advisory exercising the missing input validation: the current
intensity is fine but the environment below carries a negative potential
intensity. -/
def invalidPiNhc : NHCAdvisory :=
  { storm_id := "test01", storm_name := "TEST", advisory_number := 1,
    advisory_time := 0, classification := "HURRICANE", current_intensity := 50,
    current_pressure := some 990, latitude := 20, longitude := -80,
    movement_direction := "NW", movement_speed := 10 }

/-- Environment with a negative potential intensity, which the spec says
must be rejected with an InvalidInput failure. -/
def invalidPiEnv : EnvironmentalData :=
  { sst := 29, wind_shear := 10, potential_intensity := -100, latitude := 20,
    source := "estimated" }

/-- `InsightGenerator.generate_insight`.  `_summarize_nhc` runs first and
raises on a missing pressure; the comparative insight and the ceiling
percentage later divide by the potential intensity, raising when it is
zero.  Both Python exceptions are modelled as `none`. -/
def generateInsight (nhc : NHCAdvisory) (constraints : ConstraintState)
    (env : EnvironmentalData) : Option DiagnosticInsight :=
  match summarizeNhc nhc with
  | none => none
  | some nhc_summary =>
    if env.potential_intensity = 0 then none
    else
      some {
        timestamp := nhc.advisory_time
        storm_name := nhc.storm_name
        nhc_summary := nhc_summary
        constraint_summary := constraints.constraint_summary
        comparative_insight := generateComparativeInsight nhc constraints env
        forecast_implication := generateForecastImplication nhc constraints
        confidence := calculateConfidence constraints
        thermodynamic_ceiling_pct := nhc.current_intensity / env.potential_intensity * 100
        time_to_peak_estimate := estimateTimeToPeak constraints env
        structural_trend := assessStructuralTrend constraints
      }

theorem lo_le_clamp (lo hi x : ℚ) : lo ≤ clamp lo hi x := le_max_left _ _

theorem clamp_le_hi {lo hi : ℚ} (h : lo ≤ hi) (x : ℚ) : clamp lo hi x ≤ hi :=
  max_le h (min_le_left _ _)

theorem I_raw_bounds (nhc : NHCAdvisory) (env : EnvironmentalData) :
    0.05 ≤ I_raw nhc env ∧ I_raw nhc env ≤ 0.95 :=
  ⟨lo_le_clamp _ _ _, clamp_le_hi (by norm_num) _⟩

theorem R_raw_bounds (env : EnvironmentalData) :
    0.1 ≤ R_raw env ∧ R_raw env ≤ 0.95 :=
  ⟨lo_le_clamp _ _ _, clamp_le_hi (by norm_num) _⟩

theorem S_raw_bounds (nhc : NHCAdvisory) (env : EnvironmentalData) :
    0.05 ≤ S_raw nhc env ∧ S_raw nhc env ≤ 0.95 :=
  ⟨lo_le_clamp _ _ _, clamp_le_hi (by norm_num) _⟩

theorem getLast?_mem_of_eq_some {α : Type} {l : List α} {a : α}
    (h : l.getLast? = some a) : a ∈ l := by
  obtain ⟨h1, h2⟩ := List.mem_getLast?_eq_getLast (l := l) (x := a) (by simpa using h)
  subst h2
  exact List.getLast_mem h1

/-- C1 counterexample: with a negative potential intensity (50 kt current
intensity, PI = −100 kt) the engine does not fail with an InvalidInput
condition; it returns a ConstraintState whose headroom has been silently
clamped to the in-range value 0.95. -/
theorem invalid_pi_not_rejected :
    invalidPiEnv.potential_intensity < 0 ∧
    (calculateConstraints invalidPiNhc invalidPiEnv none).isSome = true ∧
    Option.map ConstraintState.I (calculateConstraints invalidPiNhc invalidPiEnv none) =
      some 0.95 := by
  have hne : invalidPiEnv.potential_intensity ≠ 0 := by norm_num [invalidPiEnv]
  have h : calculateConstraints invalidPiNhc invalidPiEnv none =
      some (buildState invalidPiNhc invalidPiEnv none) := by
    simp [calculateConstraints, hne]
  refine ⟨by norm_num [invalidPiEnv], by simp [h], ?_⟩
  rw [h]
  simp only [Option.map_some']
  congr 1
  show smoothedI invalidPiNhc invalidPiEnv none = 0.95
  simp only [smoothedI, I_raw, clamp, invalidPiNhc, invalidPiEnv]
  norm_num [min_def, max_def]

/-- C1 (amended): `calculate_constraints` performs no input validation;
it fails only when the potential intensity is exactly 0 (float division
by zero).  For any other input — including negative potential intensity,
negative intensity, or negative pressure — it returns a ConstraintState,
silently clamping the headroom ratio into the documented range. -/
theorem invalid_input_amended :
    (∀ (nhc : NHCAdvisory) (env : EnvironmentalData) (prev : Option ConstraintState),
      calculateConstraints nhc env prev = none ↔ env.potential_intensity = 0) ∧
    (∀ (nhc : NHCAdvisory) (env : EnvironmentalData), env.potential_intensity ≠ 0 →
      ∃ st, calculateConstraints nhc env none = some st ∧
        0.05 ≤ st.I ∧ st.I ≤ 0.95) := by
  constructor
  · intro nhc env prev
    unfold calculateConstraints
    split_ifs with h <;> simp [h]
  · intro nhc env h
    refine ⟨buildState nhc env none, by simp [calculateConstraints, h], ?_, ?_⟩
    · exact (I_raw_bounds nhc env).1
    · exact (I_raw_bounds nhc env).2

theorem invalid_input_amended_witness :
    invalidPiEnv.potential_intensity ≠ 0 ∧
    (∃ st, calculateConstraints invalidPiNhc invalidPiEnv none = some st ∧
      0.05 ≤ st.I ∧ st.I ≤ 0.95) :=
  ⟨by norm_num [invalidPiEnv],
   invalid_input_amended.2 invalidPiNhc invalidPiEnv (by norm_num [invalidPiEnv])⟩

/-- C3 counterexample: the label REMNANTS contains the substring
REMNANT, yet the classification score is 0.55 (the TS rule matches
first), not 0.15. -/
theorem classification_remnants_counterexample :
    hasSub (upclass "REMNANTS") "REMNANT" ∧
    classificationScore "REMNANTS" = 0.55 ∧ (0.55 : ℚ) ≠ 0.15 := by
  refine ⟨by decide, ?_, by norm_num⟩
  unfold classificationScore
  rw [if_neg (by decide), if_neg (by decide), if_neg (by decide), if_neg (by decide),
    if_neg (by decide), if_neg (by decide), if_pos (by decide)]

/-- C3 (amended): the classification score is the fixed ordered lookup
matched by case-insensitive substring with the most specific match
winning (Category 5 → 0.95 down through post-tropical/remnant → 0.15,
default 0.50); a label containing POST-TROPICAL or REMNANT scores 0.15
provided no earlier-priority pattern also occurs in it (a label such as
REMNANTS contains the earlier pattern TS and scores 0.55 instead). -/
theorem classification_lookup_amended :
    (∀ s : String, classificationScore s = tableLookup (upclass s) classificationTable) ∧
    (∀ s : String,
      (hasSub (upclass s) "POST-TROPICAL" ∨ hasSub (upclass s) "REMNANT") →
      (∀ p ∈ higherPatterns, ¬ hasSub (upclass s) p) →
      classificationScore s = 0.15) := by
  constructor
  · intro s
    simp only [classificationScore, tableLookup, classificationTable, List.mem_cons,
      List.mem_singleton, List.not_mem_nil, exists_eq_or_imp, exists_eq_left, false_and,
      exists_false, or_false]
  · intro s hpost hnone
    have h01 := hnone "CATEGORY 5" (by simp [higherPatterns])
    have h02 := hnone "CAT 5" (by simp [higherPatterns])
    have h03 := hnone "CATEGORY 4" (by simp [higherPatterns])
    have h04 := hnone "CAT 4" (by simp [higherPatterns])
    have h05 := hnone "CATEGORY 3" (by simp [higherPatterns])
    have h06 := hnone "CAT 3" (by simp [higherPatterns])
    have h07 := hnone "MAJOR" (by simp [higherPatterns])
    have h08 := hnone "CATEGORY 2" (by simp [higherPatterns])
    have h09 := hnone "CAT 2" (by simp [higherPatterns])
    have h10 := hnone "CATEGORY 1" (by simp [higherPatterns])
    have h11 := hnone "CAT 1" (by simp [higherPatterns])
    have h12 := hnone "HURRICANE" (by simp [higherPatterns])
    have h13 := hnone "TROPICAL STORM" (by simp [higherPatterns])
    have h14 := hnone "TS" (by simp [higherPatterns])
    have h15 := hnone "TROPICAL DEPRESSION" (by simp [higherPatterns])
    have h16 := hnone "TD" (by simp [higherPatterns])
    unfold classificationScore
    rw [if_neg (by tauto), if_neg (by tauto), if_neg (by tauto), if_neg (by tauto),
      if_neg (by tauto), if_neg (by tauto), if_neg (by tauto), if_neg (by tauto),
      if_pos hpost]

theorem classification_lookup_amended_witness :
    (hasSub (upclass "POST-TROPICAL") "POST-TROPICAL" ∨
     hasSub (upclass "POST-TROPICAL") "REMNANT") ∧
    (∀ p ∈ higherPatterns, ¬ hasSub (upclass "POST-TROPICAL") p) ∧
    classificationScore "POST-TROPICAL" = 0.15 :=
  ⟨Or.inl (by decide), by decide,
   classification_lookup_amended.2 "POST-TROPICAL" (Or.inl (by decide)) (by decide)⟩

/-- C4: the regime classifier is total over the closed label set, with
the rules evaluated in the fixed order RI_CANDIDATE, PEAK_LIMITED,
COLLAPSE, DECAY and the first match winning; RI_CANDIDATE takes
precedence whenever its conditions hold, and STABLE is returned iff no
earlier rule fires. -/
theorem regime_total_first_match (I R S dI_dt dR_dt dS_dt : ℚ) :
    (identifyRegime I R S dI_dt dR_dt dS_dt = "RI_CANDIDATE" ∨
     identifyRegime I R S dI_dt dR_dt dS_dt = "PEAK_LIMITED" ∨
     identifyRegime I R S dI_dt dR_dt dS_dt = "COLLAPSE" ∨
     identifyRegime I R S dI_dt dR_dt dS_dt = "DECAY" ∨
     identifyRegime I R S dI_dt dR_dt dS_dt = "STABLE") ∧
    (0.65 < I ∧ 0.70 < R ∧ 0.60 < S ∧ (0.01 < dI_dt ∨ 0.01 < dS_dt) →
      identifyRegime I R S dI_dt dR_dt dS_dt = "RI_CANDIDATE") ∧
    (¬(0.65 < I ∧ 0.70 < R ∧ 0.60 < S ∧ (0.01 < dI_dt ∨ 0.01 < dS_dt)) ∧
      (I < 0.35 ∧ 0.60 < S) →
      identifyRegime I R S dI_dt dR_dt dS_dt = "PEAK_LIMITED") ∧
    (¬(0.65 < I ∧ 0.70 < R ∧ 0.60 < S ∧ (0.01 < dI_dt ∨ 0.01 < dS_dt)) ∧
      ¬(I < 0.35 ∧ 0.60 < S) ∧ (S < 0.35 ∨ (dS_dt < -0.05 ∧ S < 0.50)) →
      identifyRegime I R S dI_dt dR_dt dS_dt = "COLLAPSE") ∧
    (¬(0.65 < I ∧ 0.70 < R ∧ 0.60 < S ∧ (0.01 < dI_dt ∨ 0.01 < dS_dt)) ∧
      ¬(I < 0.35 ∧ 0.60 < S) ∧ ¬(S < 0.35 ∨ (dS_dt < -0.05 ∧ S < 0.50)) ∧
      ((dI_dt < -0.02 ∧ dR_dt < -0.02) ∨ dS_dt < -0.03) →
      identifyRegime I R S dI_dt dR_dt dS_dt = "DECAY") ∧
    (identifyRegime I R S dI_dt dR_dt dS_dt = "STABLE" ↔
      ¬(0.65 < I ∧ 0.70 < R ∧ 0.60 < S ∧ (0.01 < dI_dt ∨ 0.01 < dS_dt)) ∧
      ¬(I < 0.35 ∧ 0.60 < S) ∧ ¬(S < 0.35 ∨ (dS_dt < -0.05 ∧ S < 0.50)) ∧
      ¬((dI_dt < -0.02 ∧ dR_dt < -0.02) ∨ dS_dt < -0.03)) := by
  have n1 : ("RI_CANDIDATE" : String) ≠ "STABLE" := by decide
  have n2 : ("PEAK_LIMITED" : String) ≠ "STABLE" := by decide
  have n3 : ("COLLAPSE" : String) ≠ "STABLE" := by decide
  have n4 : ("DECAY" : String) ≠ "STABLE" := by decide
  unfold identifyRegime
  split_ifs with h1 h2 h3 h4
  · exact ⟨by simp, fun _ => rfl, fun hc => absurd h1 hc.1, fun hc => absurd h1 hc.1,
      fun hc => absurd h1 hc.1, ⟨fun he => absurd he n1, fun hc => absurd h1 hc.1⟩⟩
  · exact ⟨by simp, fun hc => absurd hc h1, fun _ => rfl, fun hc => absurd h2 hc.2.1,
      fun hc => absurd h2 hc.2.1, ⟨fun he => absurd he n2, fun hc => absurd h2 hc.2.1⟩⟩
  · exact ⟨by simp, fun hc => absurd hc h1, fun hc => absurd hc.2 h2, fun _ => rfl,
      fun hc => absurd h3 hc.2.2.1, ⟨fun he => absurd he n3, fun hc => absurd h3 hc.2.2.1⟩⟩
  · exact ⟨by simp, fun hc => absurd hc h1, fun hc => absurd hc.2 h2,
      fun hc => absurd hc.2.2 h3, fun _ => rfl,
      ⟨fun he => absurd he n4, fun hc => absurd h4 hc.2.2.2⟩⟩
  · exact ⟨by simp, fun hc => absurd hc h1, fun hc => absurd hc.2 h2,
      fun hc => absurd hc.2.2 h3, fun hc => absurd hc.2.2.2 h4,
      ⟨fun _ => ⟨h1, h2, h3, h4⟩, fun _ => rfl⟩⟩

theorem regime_total_first_match_witness :
    (0.65 < (0.7 : ℚ) ∧ 0.70 < (0.8 : ℚ) ∧ 0.60 < (0.7 : ℚ) ∧
      (0.01 < (0.02 : ℚ) ∨ 0.01 < (0 : ℚ))) ∧
    identifyRegime 0.7 0.8 0.7 0.02 0 0 = "RI_CANDIDATE" := by
  have h : 0.65 < (0.7 : ℚ) ∧ 0.70 < (0.8 : ℚ) ∧ 0.60 < (0.7 : ℚ) ∧
      (0.01 < (0.02 : ℚ) ∨ 0.01 < (0 : ℚ)) := by
    refine ⟨by norm_num, by norm_num, by norm_num, Or.inl (by norm_num)⟩
  exact ⟨h, (regime_total_first_match 0.7 0.8 0.7 0.02 0 0).2.1 h⟩

/-- C7: at fixed S and dS/dt the refusal-risk level is antitone in L
under the ordering LOW < MODERATE < HIGH < CRITICAL: lowering L never
lowers the assigned risk level. -/
theorem risk_monotone_in_L (L1 L2 S dS_dt : ℚ) (h : L1 ≤ L2) :
    riskRank (assessRefusalRisk L2 S dS_dt) ≤ riskRank (assessRefusalRisk L1 S dS_dt) := by
  unfold assessRefusalRisk
  by_cases c1 : L2 < 0.15 ∨ (S < 0.25 ∧ dS_dt < -0.05)
  · have c1' : L1 < 0.15 ∨ (S < 0.25 ∧ dS_dt < -0.05) :=
      c1.imp (fun hx => lt_of_le_of_lt h hx) id
    rw [if_pos c1, if_pos c1']
  · rw [if_neg c1]
    by_cases c2 : L2 < 0.25 ∨ (S < 0.40 ∧ dS_dt < -0.03)
    · rw [if_pos c2]
      by_cases d1 : L1 < 0.15 ∨ (S < 0.25 ∧ dS_dt < -0.05)
      · rw [if_pos d1]
        decide
      · have c2' : L1 < 0.25 ∨ (S < 0.40 ∧ dS_dt < -0.03) :=
          c2.imp (fun hx => lt_of_le_of_lt h hx) id
        rw [if_neg d1, if_pos c2']
    · rw [if_neg c2]
      by_cases c3 : L2 < 0.40
      · rw [if_pos c3]
        have c3' : L1 < 0.40 := lt_of_le_of_lt h c3
        by_cases d1 : L1 < 0.15 ∨ (S < 0.25 ∧ dS_dt < -0.05)
        · rw [if_pos d1]
          decide
        · rw [if_neg d1]
          by_cases d2 : L1 < 0.25 ∨ (S < 0.40 ∧ dS_dt < -0.03)
          · rw [if_pos d2]
            decide
          · rw [if_neg d2, if_pos c3']
      · rw [if_neg c3]
        have hz : riskRank "LOW" = 0 := by decide
        rw [hz]
        exact Nat.zero_le _

theorem risk_monotone_in_L_witness :
    (0.1 : ℚ) ≤ 0.3 ∧
    riskRank (assessRefusalRisk 0.3 0.5 0) ≤ riskRank (assessRefusalRisk 0.1 0.5 0) :=
  ⟨by norm_num, risk_monotone_in_L 0.1 0.3 0.5 0 (by norm_num)⟩

/-- C9: the insight confidence equals the clamp to [0.4, 0.95] of the
base 0.6 plus the three additive, independent adjustments (+0.15 for a
clear regime, +0.10 for a strong admissibility trend, −0.10 in the
ambiguous-L zone), and it always lies within [0.4, 0.95]. -/
theorem confidence_additive_clamped (c : ConstraintState) :
    calculateConfidence c =
      clamp 0.4 0.95 (0.6 +
        (if c.regime = "RI_CANDIDATE" ∨ c.regime = "PEAK_LIMITED" ∨ c.regime = "COLLAPSE"
          then 0.15 else 0) +
        (if 0.03 < |c.dL_dt| then 0.10 else 0) -
        (if 0.4 < c.L ∧ c.L < 0.6 then 0.10 else 0)) ∧
    0.4 ≤ calculateConfidence c ∧ calculateConfidence c ≤ 0.95 := by
  refine ⟨?_, ?_, ?_⟩
  · unfold calculateConfidence clamp
    split_ifs <;> norm_num
  · unfold calculateConfidence
    exact le_max_left _ _
  · unfold calculateConfidence
    exact max_le (by norm_num) (min_le_left _ _)

/-- C5: with a previous state, the stored indices are exactly the convex
combinations 0.7/0.3 (I and R) and 0.8/0.2 (S) of the clamped raw values
with the previous values; with no previous state they equal the raw
clamped values and all four derivatives are exactly 0. -/
theorem smoothing_convex (nhc : NHCAdvisory) (env : EnvironmentalData)
    (hPI : env.potential_intensity ≠ 0) :
    (∀ p : ConstraintState, ∃ st, calculateConstraints nhc env (some p) = some st ∧
      st.I = 0.7 * I_raw nhc env + 0.3 * p.I ∧
      st.R = 0.7 * R_raw env + 0.3 * p.R ∧
      st.S = 0.8 * S_raw nhc env + 0.2 * p.S) ∧
    (∃ st, calculateConstraints nhc env none = some st ∧
      st.I = I_raw nhc env ∧ st.R = R_raw env ∧ st.S = S_raw nhc env ∧
      st.dI_dt = 0 ∧ st.dR_dt = 0 ∧ st.dS_dt = 0 ∧ st.dL_dt = 0) := by
  constructor
  · intro p
    exact ⟨buildState nhc env (some p), by simp [calculateConstraints, hPI],
      rfl, rfl, rfl⟩
  · exact ⟨buildState nhc env none, by simp [calculateConstraints, hPI],
      rfl, rfl, rfl, rfl, rfl, rfl, rfl⟩

theorem smoothing_convex_witness :
    sampleEnv.potential_intensity ≠ 0 ∧
    (∃ st, calculateConstraints sampleNhc sampleEnv (some sampleState) = some st ∧
      st.I = 0.7 * I_raw sampleNhc sampleEnv + 0.3 * sampleState.I ∧
      st.R = 0.7 * R_raw sampleEnv + 0.3 * sampleState.R ∧
      st.S = 0.8 * S_raw sampleNhc sampleEnv + 0.2 * sampleState.S) :=
  ⟨by simp [sampleEnv],
   (smoothing_convex sampleNhc sampleEnv (by simp [sampleEnv])).1 sampleState⟩

/-- C6: with a previous state and strictly positive elapsed hours each
rate equals (new − previous) / elapsed_hours; with non-positive elapsed
time, or with no previous state, all four rates are 0 and the
computation still succeeds. -/
theorem rates_formula (nhc : NHCAdvisory) (env : EnvironmentalData)
    (hPI : env.potential_intensity ≠ 0) :
    (∀ p : ConstraintState, ∃ st, calculateConstraints nhc env (some p) = some st ∧
      (0 < (nhc.advisory_time - p.timestamp) / 3600 →
        st.dI_dt = (st.I - p.I) / ((nhc.advisory_time - p.timestamp) / 3600) ∧
        st.dR_dt = (st.R - p.R) / ((nhc.advisory_time - p.timestamp) / 3600) ∧
        st.dS_dt = (st.S - p.S) / ((nhc.advisory_time - p.timestamp) / 3600) ∧
        st.dL_dt = (st.L - p.L) / ((nhc.advisory_time - p.timestamp) / 3600)) ∧
      (¬ 0 < (nhc.advisory_time - p.timestamp) / 3600 →
        st.dI_dt = 0 ∧ st.dR_dt = 0 ∧ st.dS_dt = 0 ∧ st.dL_dt = 0)) ∧
    (∃ st, calculateConstraints nhc env none = some st ∧
      st.dI_dt = 0 ∧ st.dR_dt = 0 ∧ st.dS_dt = 0 ∧ st.dL_dt = 0) := by
  constructor
  · intro p
    refine ⟨buildState nhc env (some p), by simp [calculateConstraints, hPI], ?_, ?_⟩
    · intro hdt
      have hr : rateVec nhc env (some p) =
          ((smoothedI nhc env (some p) - p.I) / ((nhc.advisory_time - p.timestamp) / 3600),
           (smoothedR env (some p) - p.R) / ((nhc.advisory_time - p.timestamp) / 3600),
           (smoothedS nhc env (some p) - p.S) / ((nhc.advisory_time - p.timestamp) / 3600),
           (admissibility nhc env (some p) - p.L) / ((nhc.advisory_time - p.timestamp) / 3600)) := by
        simp only [rateVec]
        rw [if_pos hdt]
      refine ⟨?_, ?_, ?_, ?_⟩
      · show (rateVec nhc env (some p)).1 = _
        rw [hr]
        rfl
      · show (rateVec nhc env (some p)).2.1 = _
        rw [hr]
        rfl
      · show (rateVec nhc env (some p)).2.2.1 = _
        rw [hr]
        rfl
      · show (rateVec nhc env (some p)).2.2.2 = _
        rw [hr]
        rfl
    · intro hdt
      have hr : rateVec nhc env (some p) = (0, 0, 0, 0) := by
        simp only [rateVec]
        rw [if_neg hdt]
      refine ⟨?_, ?_, ?_, ?_⟩
      · show (rateVec nhc env (some p)).1 = 0
        rw [hr]
      · show (rateVec nhc env (some p)).2.1 = 0
        rw [hr]
      · show (rateVec nhc env (some p)).2.2.1 = 0
        rw [hr]
      · show (rateVec nhc env (some p)).2.2.2 = 0
        rw [hr]
  · exact ⟨buildState nhc env none, by simp [calculateConstraints, hPI],
      rfl, rfl, rfl, rfl⟩

theorem rates_formula_witness :
    sampleEnv.potential_intensity ≠ 0 ∧
    (∃ st, calculateConstraints sampleNhc sampleEnv none = some st ∧
      st.dI_dt = 0 ∧ st.dR_dt = 0 ∧ st.dS_dt = 0 ∧ st.dL_dt = 0) :=
  ⟨by simp [sampleEnv], (rates_formula sampleNhc sampleEnv (by simp [sampleEnv])).2⟩

/-- C10: with a missing (None) pressure the insight generation fails (the
fixed-precision format is applied to the pressure unconditionally), while
the engine itself accepts the same advisory with a neutral 0.5 pressure
score — so the insight interface effectively requires a pressure value
despite declaring it optional. -/
theorem pressure_effectively_required (nhc : NHCAdvisory) (cs : ConstraintState)
    (env : EnvironmentalData) (prev : Option ConstraintState)
    (hp : nhc.current_pressure = none) (hPI : env.potential_intensity ≠ 0) :
    generateInsight nhc cs env = none ∧
    pressureScore nhc = 0.5 ∧
    (calculateConstraints nhc env prev).isSome = true := by
  refine ⟨?_, ?_, ?_⟩
  · simp [generateInsight, summarizeNhc, hp]
  · simp [pressureScore, hp]
  · simp [calculateConstraints, hPI]

theorem pressure_effectively_required_witness :
    sampleNhcNoPressure.current_pressure = none ∧
    sampleEnv.potential_intensity ≠ 0 ∧
    (generateInsight sampleNhcNoPressure sampleState sampleEnv = none ∧
     pressureScore sampleNhcNoPressure = 0.5 ∧
     (calculateConstraints sampleNhcNoPressure sampleEnv none).isSome = true) :=
  ⟨rfl, by simp [sampleEnv],
   pressure_effectively_required sampleNhcNoPressure sampleState sampleEnv none rfl
     (by simp [sampleEnv])⟩

theorem buildState_inRange (nhc : NHCAdvisory) (env : EnvironmentalData)
    (prev : Option ConstraintState)
    (hprev : ∀ p, prev = some p → StateInRange p) :
    StateInRange (buildState nhc env prev) := by
  have hI : 0.05 ≤ smoothedI nhc env prev ∧ smoothedI nhc env prev ≤ 0.95 := by
    have hr := I_raw_bounds nhc env
    cases prev with
    | none => simpa [smoothedI] using hr
    | some p =>
      obtain ⟨h1, h2, -, -, -, -, -, -, -⟩ := hprev p rfl
      simp only [smoothedI]
      constructor <;> linarith [hr.1, hr.2]
  have hR : 0.1 ≤ smoothedR env prev ∧ smoothedR env prev ≤ 0.95 := by
    have hr := R_raw_bounds env
    cases prev with
    | none => simpa [smoothedR] using hr
    | some p =>
      obtain ⟨-, -, h1, h2, -, -, -, -, -⟩ := hprev p rfl
      simp only [smoothedR]
      constructor <;> linarith [hr.1, hr.2]
  have hS : 0.05 ≤ smoothedS nhc env prev ∧ smoothedS nhc env prev ≤ 0.95 := by
    have hr := S_raw_bounds nhc env
    cases prev with
    | none => simpa [smoothedS] using hr
    | some p =>
      obtain ⟨-, -, -, -, h1, h2, -, -, -⟩ := hprev p rfl
      simp only [smoothedS]
      constructor <;> linarith [hr.1, hr.2]
  have hIpos : (0 : ℚ) ≤ smoothedI nhc env prev := le_trans (by norm_num) hI.1
  have hRpos : (0 : ℚ) ≤ smoothedR env prev := le_trans (by norm_num) hR.1
  have hSpos : (0 : ℚ) ≤ smoothedS nhc env prev := le_trans (by norm_num) hS.1
  have hlo1 : (0.05 : ℚ) * 0.1 ≤ smoothedI nhc env prev * smoothedR env prev :=
    mul_le_mul hI.1 hR.1 (by norm_num) hIpos
  have hlo : (0.05 : ℚ) * 0.1 * 0.05 ≤
      smoothedI nhc env prev * smoothedR env prev * smoothedS nhc env prev :=
    mul_le_mul hlo1 hS.1 (by norm_num) (le_trans (by norm_num) hlo1)
  have hhi1 : smoothedI nhc env prev * smoothedR env prev ≤ 0.95 * 0.95 :=
    mul_le_mul hI.2 hR.2 hRpos (by norm_num)
  have hhi : smoothedI nhc env prev * smoothedR env prev * smoothedS nhc env prev ≤
      (0.95 : ℚ) ^ 3 := by
    have e : (0.95 : ℚ) ^ 3 = 0.95 * 0.95 * 0.95 := by norm_num
    rw [e]
    exact mul_le_mul hhi1 hS.2 hSpos (by norm_num)
  exact ⟨hI.1, hI.2, hR.1, hR.2, hS.1, hS.2, rfl, hlo, hhi⟩

theorem engineRun_master :
    ∀ (inputs : List (NHCAdvisory × EnvironmentalData)) (acc : List ConstraintState),
      (∀ q ∈ inputs, q.2.potential_intensity ≠ 0) →
      acc.length ≤ 48 →
      (∀ s ∈ acc, StateInRange s) →
      ∃ hf outs, engineRun inputs acc = some (hf, outs) ∧
        outs.length = inputs.length ∧
        hf = (acc ++ outs).drop ((acc ++ outs).length - 48) ∧
        (∀ s ∈ outs, StateInRange s) ∧
        (∀ s ∈ hf, StateInRange s) := by
  intro inputs
  induction inputs with
  | nil =>
    intro acc hPI hlen hrange
    refine ⟨acc, [], rfl, rfl, ?_, by simp, hrange⟩
    have h0 : (acc ++ ([] : List ConstraintState)).length - 48 = 0 := by
      simp
      omega
    rw [h0]
    simp
  | cons q rest ih =>
    intro acc hPI hlen hrange
    have hq : q.2.potential_intensity ≠ 0 := hPI q (by simp)
    have hStIn : StateInRange (buildState q.1 q.2 acc.getLast?) := by
      apply buildState_inRange
      intro p hp
      exact hrange p (getLast?_mem_of_eq_some hp)
    have hstep : engineStep acc q.1 q.2 =
        some (if historyLimit < (acc ++ [buildState q.1 q.2 acc.getLast?]).length
              then (acc ++ [buildState q.1 q.2 acc.getLast?]).tail
              else acc ++ [buildState q.1 q.2 acc.getLast?],
              buildState q.1 q.2 acc.getLast?) := by
      simp [engineStep, calculateConstraints, hq]
    have hall : ∀ s ∈ acc ++ [buildState q.1 q.2 acc.getLast?], StateInRange s := by
      intro s hs
      rcases List.mem_append.mp hs with hs | hs
      · exact hrange s hs
      · rw [List.mem_singleton.mp hs]
        exact hStIn
    by_cases hc : historyLimit < (acc ++ [buildState q.1 q.2 acc.getLast?]).length
    · -- eviction case: the history already held 48 entries
      have hacc48 : acc.length = 48 := by
        simp only [historyLimit, List.length_append, List.length_singleton] at hc
        omega
      obtain ⟨a, as, rfl⟩ : ∃ a as, acc = a :: as := by
        cases acc with
        | nil => simp at hacc48
        | cons a as => exact ⟨a, as, rfl⟩
      have las : as.length = 47 := by
        simpa using hacc48
      have h'eq : ((a :: as) ++ [buildState q.1 q.2 (a :: as).getLast?]).tail =
          as ++ [buildState q.1 q.2 (a :: as).getLast?] := rfl
      have hlen' : (as ++ [buildState q.1 q.2 (a :: as).getLast?]).length ≤ 48 := by
        simp [las]
      have hrange' : ∀ s ∈ as ++ [buildState q.1 q.2 (a :: as).getLast?], StateInRange s := by
        intro s hs
        apply hall
        rcases List.mem_append.mp hs with hs | hs
        · exact List.mem_append.mpr (Or.inl (List.mem_cons_of_mem a hs))
        · exact List.mem_append.mpr (Or.inr hs)
      have hPI' : ∀ q' ∈ rest, q'.2.potential_intensity ≠ 0 := by
        intro q' hq'
        exact hPI q' (by simp [hq'])
      obtain ⟨hf, outs, hrun, hlenouts, hdrop, hoins, hfins⟩ :=
        ih (as ++ [buildState q.1 q.2 (a :: as).getLast?]) hPI' hlen' hrange'
      refine ⟨hf, buildState q.1 q.2 (a :: as).getLast? :: outs, ?_, by simp [hlenouts], ?_, ?_, hfins⟩
      · simp only [engineRun, hstep, if_pos hc, h'eq, hrun]
      · rw [hdrop]
        simp only [List.append_assoc, List.singleton_append, List.cons_append,
          List.length_cons, List.length_append, List.nil_append, List.length_nil,
          Nat.zero_add]
        rw [las]
        have e1 : 47 + (outs.length + 1) - 48 = outs.length := by omega
        have e2 : 47 + (outs.length + 1) + 1 - 48 = outs.length + 1 := by omega
        rw [e1, e2, List.drop_succ_cons]
      · intro s hs
        rcases List.mem_cons.mp hs with rfl | hs
        · exact hStIn
        · exact hoins s hs
    · -- no eviction: room remains below the cap
      have hlen' : (acc ++ [buildState q.1 q.2 acc.getLast?]).length ≤ 48 := by
        simp only [historyLimit, List.length_append, List.length_singleton] at hc ⊢
        omega
      have hPI' : ∀ q' ∈ rest, q'.2.potential_intensity ≠ 0 := by
        intro q' hq'
        exact hPI q' (by simp [hq'])
      obtain ⟨hf, outs, hrun, hlenouts, hdrop, hoins, hfins⟩ :=
        ih (acc ++ [buildState q.1 q.2 acc.getLast?]) hPI' hlen' hall
      refine ⟨hf, buildState q.1 q.2 acc.getLast? :: outs, ?_, by simp [hlenouts], ?_, ?_, hfins⟩
      · simp only [engineRun, hstep, if_neg hc, hrun]
      · rw [hdrop]
        simp [List.append_assoc]
      · intro s hs
        rcases List.mem_cons.mp hs with rfl | hs
        · exact hStIn
        · exact hoins s hs

/-- C2: over any sequence of valid inputs processed by the engine from an
empty history, every produced ConstraintState satisfies I ∈ [0.05, 0.95],
R ∈ [0.1, 0.95], S ∈ [0.05, 0.95] and L = I·R·S ∈ [0.05·0.1·0.05,
0.95³] without independent clamping of L, and the same holds for every
state retained in the history. -/
theorem indices_bounded_over_runs (inputs : List (NHCAdvisory × EnvironmentalData))
    (hval : ∀ q ∈ inputs, 0 < q.2.potential_intensity) :
    ∃ hf outs, engineRun inputs [] = some (hf, outs) ∧
      (∀ s ∈ outs, StateInRange s) ∧ (∀ s ∈ hf, StateInRange s) := by
  obtain ⟨hf, outs, hrun, -, -, houts, hf2⟩ :=
    engineRun_master inputs [] (fun q hq => ne_of_gt (hval q hq)) (by simp) (by simp)
  exact ⟨hf, outs, hrun, houts, hf2⟩

theorem indices_bounded_over_runs_witness :
    (∀ q ∈ [(sampleNhc, sampleEnv)], 0 < q.2.potential_intensity) ∧
    (∃ hf outs, engineRun [(sampleNhc, sampleEnv)] [] = some (hf, outs) ∧
      (∀ s ∈ outs, StateInRange s) ∧ (∀ s ∈ hf, StateInRange s)) := by
  have hyp : ∀ q ∈ [(sampleNhc, sampleEnv)], 0 < q.2.potential_intensity := by
    intro q hq
    rw [List.mem_singleton] at hq
    subst hq
    norm_num [sampleEnv]
  exact ⟨hyp, indices_bounded_over_runs [(sampleNhc, sampleEnv)] hyp⟩

/-- C8: the per-storm history is a bounded FIFO with cap 48: each call
appends exactly one state (one output per input), and after any run from
an empty history the retained history is exactly the newest 48 produced
states in their original insertion order — after the 49th insertion the
oldest state has been evicted — so the history length never exceeds
48. -/
theorem history_bounded_fifo (inputs : List (NHCAdvisory × EnvironmentalData))
    (hPI : ∀ q ∈ inputs, q.2.potential_intensity ≠ 0) :
    ∃ hf outs, engineRun inputs [] = some (hf, outs) ∧
      outs.length = inputs.length ∧
      hf = outs.drop (outs.length - historyLimit) ∧
      hf.length ≤ historyLimit := by
  obtain ⟨hf, outs, hrun, hlen, hdrop, -, -⟩ :=
    engineRun_master inputs [] hPI (by simp) (by simp)
  refine ⟨hf, outs, hrun, hlen, ?_, ?_⟩
  · simpa [historyLimit] using hdrop
  · rw [hdrop]
    simp only [List.nil_append, List.length_drop, historyLimit]
    omega

theorem history_bounded_fifo_witness :
    (∀ q ∈ [(sampleNhc, sampleEnv)], q.2.potential_intensity ≠ 0) ∧
    (∃ hf outs, engineRun [(sampleNhc, sampleEnv)] [] = some (hf, outs) ∧
      outs.length = [(sampleNhc, sampleEnv)].length ∧
      hf = outs.drop (outs.length - historyLimit) ∧
      hf.length ≤ historyLimit) := by
  have hyp : ∀ q ∈ [(sampleNhc, sampleEnv)], q.2.potential_intensity ≠ 0 := by
    intro q hq
    rw [List.mem_singleton] at hq
    subst hq
    norm_num [sampleEnv]
  exact ⟨hyp, history_bounded_fifo [(sampleNhc, sampleEnv)] hyp⟩
